import Mathlib

/-
Verification development for the nft-tutorial CLI core (src/contracts.ts and
the bootstrap module).  The TypeScript source is shallowly embedded: pure
functions become Lean functions, promise-returning functions become
`Except`-valued functions (a rejected promise is `.error`), and the external
collaborators (configuration store, alias resolution, RPC submission
outcomes) are passed in explicitly as data.
-/

/-! ## String helpers (models of the JavaScript string operations used) -/

/-- Model of the JavaScript whitespace test used by `String.prototype.trim`
restricted to the ASCII whitespace occurring in CLI input. -/
def isWsChar (c : Char) : Bool :=
  c = ' ' || c = '\t' || c = '\n' || c = '\r'

/-- Model of `String.prototype.trim`: drop leading and trailing whitespace. -/
def trimStr (s : String) : String :=
  ⟨((s.toList.dropWhile isWsChar).reverse.dropWhile isWsChar).reverse⟩

/-- Helper for `splitOnComma`: walk the characters, cutting at commas.
`acc` holds the current field reversed. -/
def splitCommaAux : List Char → List Char → List String
  | [], acc => [⟨acc.reverse⟩]
  | c :: cs, acc =>
    if c = ',' then ⟨acc.reverse⟩ :: splitCommaAux cs []
    else splitCommaAux cs (c :: acc)

/-- Model of `String.prototype.split(',')`: always returns at least one
field; `""` splits to `[""]`, `"a,,b"` to `["a","","b"]`. -/
def splitOnComma (s : String) : List String :=
  splitCommaAux s.toList []

/-! ## BigNumber (bignumber.js) model

The CLI only ever builds `BigNumber`s from (trimmed) integer numerals or
from `undefined`.  A `BigNumber` is modelled as an optional integer where
`none` is `NaN` (the result of `new BigNumber(undefined)` or of parsing a
non-numeral). -/

structure BigNumber where
  val : Option Int
deriving DecidableEq, Repr

/-- Accumulate decimal digits; any non-digit character makes the parse fail
(bignumber.js yields `NaN` on such input). -/
def decDigitsAux : List Char → Nat → Option Nat
  | [], acc => some acc
  | c :: cs, acc =>
    if c.isDigit then decDigitsAux cs (acc * 10 + (c.toNat - 48)) else none

/-- Parse a nonempty all-digit character list. -/
def decDigits : List Char → Option Nat
  | [] => none
  | l => decDigitsAux l 0

/-- Model of `new BigNumber(s)` on the integer numerals the CLI feeds it:
surrounding whitespace is ignored, an optional sign is accepted, anything
else is `NaN`. -/
def BigNumber.ofString (s : String) : BigNumber :=
  match (trimStr s).toList with
  | '-' :: rest =>
    match decDigits rest with
    | some n => ⟨some (-(n : Int))⟩
    | none => ⟨none⟩
  | '+' :: rest =>
    match decDigits rest with
    | some n => ⟨some (n : Int)⟩
    | none => ⟨none⟩
  | l =>
    match decDigits l with
    | some n => ⟨some (n : Int)⟩
    | none => ⟨none⟩

/-- `new BigNumber(x)` where `x` may be `undefined` (e.g. a missing
destructured array element): `undefined` gives `NaN`. -/
def BigNumber.ofOptionString : Option String → BigNumber
  | none => ⟨none⟩
  | some s => BigNumber.ofString s

def BigNumber.one : BigNumber := ⟨some 1⟩

def BigNumber.zero : BigNumber := ⟨some 0⟩

/-! ## MichelsonMap model

`MichelsonMap` from taquito is modelled as an association list in insertion
order; `set` overwrites in place when the key is already present and appends
otherwise, `get` returns the stored value or `undefined` (`none`). -/

def msSet {K V : Type} [DecidableEq K] : List (K × V) → K → V → List (K × V)
  | [], k, v => [(k, v)]
  | (k2, v2) :: rest, k, v =>
    if k2 = k then (k2, v) :: rest else (k2, v2) :: msSet rest k v

def msGet {K V : Type} [DecidableEq K] : List (K × V) → K → Option V
  | [], _ => none
  | (k2, v2) :: rest, k => if k2 = k then some v2 else msGet rest k

/-! ## Data model (fa2-interface types as used by contracts.ts) -/

/-- `TokenMetadata` from fa2-interface.  `symbol`/`name` are `Option`
because the destructuring `const [id, symbol, name, ipfcCid] = ...` yields
`undefined` for missing fields. -/
structure TokenMetadata where
  token_id : BigNumber
  symbol : Option String
  name : Option String
  decimals : BigNumber
  extras : List (String × String)
deriving DecidableEq, Repr

/-- A single transfer destination (`Fa2TransferDestination`). -/
structure Fa2TransferDestination where
  to_ : Option String
  token_id : BigNumber
  amount : BigNumber
deriving DecidableEq, Repr

/-- A batched transfer entry (`Fa2Transfer`).  `from_` is the first field of
the split descriptor, which always exists. -/
structure Fa2Transfer where
  from_ : String
  txs : List Fa2TransferDestination
deriving DecidableEq, Repr

structure OperatorParam where
  owner : String
  operator : String
  token_id : BigNumber
deriving DecidableEq, Repr

/-! ## Batch compiler -/

/-- Embedding of `parseTransfers` (src/contracts.ts, lines 205-227).
The descriptor is split at commas and each field trimmed; the new entry has
a single destination with amount 1.  The merge test in the source is
`batch.length > 0 && batch[0].from_ === from_`: it inspects the FIRST
element of the batch and, on equality, appends the new destination to that
first entry's `txs`; otherwise the new entry is appended at the end via
`batch.concat(tx)`. -/
def parseTransfers (description : String) (batch : List Fa2Transfer) :
    List Fa2Transfer :=
  let parts := (splitOnComma description).map trimStr
  let from_ := parts.getD 0 ""
  let tx : Fa2Transfer :=
    { from_ := from_
      txs := [{ to_ := parts.get? 1
                token_id := BigNumber.ofOptionString (parts.get? 2)
                amount := BigNumber.one }] }
  match batch with
  | [] => [tx]
  | b0 :: rest =>
    if b0.from_ = from_ then
      { b0 with txs := b0.txs ++ tx.txs } :: rest
    else (b0 :: rest) ++ [tx]

/-- The token built by `parseTokens` (src/contracts.ts, lines 79-93) from a
single descriptor: split at commas, trim fields, decimals fixed at 0, and an
`ipfs_cid` extras entry exactly when the fourth field is present and
truthy (non-empty). -/
def parsedToken (descriptor : String) : TokenMetadata :=
  let parts := (splitOnComma descriptor).map trimStr
  { token_id := BigNumber.ofString (parts.getD 0 "")
    symbol := parts.get? 1
    name := parts.get? 2
    decimals := BigNumber.zero
    extras :=
      match parts.get? 3 with
      | some c => if c = "" then [] else msSet [] "ipfs_cid" c
      | none => [] }

/-- Embedding of `parseTokens`: `[token].concat(tokens)` prepends the newly
parsed token to the accumulated list. -/
def parseTokens (descriptor : String) (tokens : List TokenMetadata) :
    List TokenMetadata :=
  [parsedToken descriptor] ++ tokens

/-! ## Storage encoder -/

/-- Initial NFT contract storage (`createNftStorage`'s result shape); the
`operators` map is created empty and untyped in the source, its key/value
types are irrelevant here. -/
structure NftStorage where
  ledger : List (BigNumber × String)
  operators : List (String × String)
  token_metadata : List (BigNumber × TokenMetadata)
deriving DecidableEq, Repr

/-- Embedding of `createNftStorage` (src/contracts.ts, lines 95-107): one
pass over the tokens setting `ledger[token_id] := owner` and
`token_metadata[token_id] := meta`. -/
def createNftStorage (tokens : List TokenMetadata) (owner : String) :
    NftStorage :=
  let maps := tokens.foldl
    (fun (acc : List (BigNumber × String) × List (BigNumber × TokenMetadata))
         meta =>
      (msSet acc.1 meta.token_id owner, msSet acc.2 meta.token_id meta))
    ([], [])
  { ledger := maps.1, operators := [], token_metadata := maps.2 }

example :
    parseTransfers "a,c,2" (parseTransfers "a,b,1" []) =
      [{ from_ := "a"
         txs := [{ to_ := some "b", token_id := ⟨some 1⟩, amount := ⟨some 1⟩ },
                 { to_ := some "c", token_id := ⟨some 2⟩, amount := ⟨some 1⟩ }] }] := by
  decide

/-! ## Claims C1 and C2: the parseTransfers merge rule

The source comment says "merge last two transfers if their from_ addresses
are the same", but the test is `batch[0].from_ === from_`, i.e. against the
FIRST entry of the batch, while new entries are appended at the END.  The
two theorems below evaluate the code on batches where first and last-added
entries differ. -/

/-- A batch compiled from `"a,b,1"` then `"x,y,9"`: its first entry is the
`"a"` entry and its last-added entry is the `"x"` entry. -/
def c1Batch : List Fa2Transfer := parseTransfers "x,y,9" (parseTransfers "a,b,1" [])

/-- C1: evaluation of `parseTransfers` at inputs separating "first entry"
from "last-added entry".  The batch `c1Batch` has entries for `"a"` then
`"x"`.  Descriptor `"x,z,2"` matches the last-added entry, yet the code
appends a third entry (the claim predicts a merge keeping length 2);
descriptor `"a,z,2"` does not match the last-added entry, yet the code
merges it into the first entry keeping length 2 (the claim predicts an
appended third entry). -/
theorem parseTransfers_merge_checks_first_entry :
    c1Batch.map Fa2Transfer.from_ = ["a", "x"] ∧
    (parseTransfers "x,z,2" c1Batch).length = 3 ∧
    (parseTransfers "a,z,2" c1Batch).length = 2 ∧
    parseTransfers "a,z,2" c1Batch =
      [{ from_ := "a"
         txs := [{ to_ := some "b", token_id := ⟨some 1⟩, amount := ⟨some 1⟩ },
                 { to_ := some "z", token_id := ⟨some 2⟩, amount := ⟨some 1⟩ }] },
       { from_ := "x"
         txs := [{ to_ := some "y", token_id := ⟨some 9⟩, amount := ⟨some 1⟩ }] }] := by
  decide

/-- C2: evaluation of the compilation of `"a,b,1"`, `"x,y,9"`, `"a,c,2"` in
order from the empty batch: the code produces 2 entries, merging the
non-adjacent `"a"` descriptors into the first entry, where the claim says
3 entries with no merge across non-adjacent senders. -/
theorem parseTransfers_merges_nonadjacent_sender :
    parseTransfers "a,c,2" (parseTransfers "x,y,9" (parseTransfers "a,b,1" [])) =
      [{ from_ := "a"
         txs := [{ to_ := some "b", token_id := ⟨some 1⟩, amount := ⟨some 1⟩ },
                 { to_ := some "c", token_id := ⟨some 2⟩, amount := ⟨some 1⟩ }] },
       { from_ := "x"
         txs := [{ to_ := some "y", token_id := ⟨some 9⟩, amount := ⟨some 1⟩ }] }] ∧
    (parseTransfers "a,c,2" (parseTransfers "x,y,9" (parseTransfers "a,b,1" []))).length = 2 := by
  decide

/-! ## Claim C3: createNftStorage -/

/-- `lastMatch tokens id` is the LAST element of `tokens` whose `token_id`
is `id`, if any: the value a sequence of `MichelsonMap.set` calls leaves
behind for a duplicated key. -/
def lastMatch : List TokenMetadata → BigNumber → Option TokenMetadata
  | [], _ => none
  | t :: ts, id =>
    match lastMatch ts id with
    | some u => some u
    | none => if t.token_id = id then some t else none

theorem msGet_msSet {K V : Type} [DecidableEq K]
    (m : List (K × V)) (k k2 : K) (v : V) :
    msGet (msSet m k v) k2 = if k = k2 then some v else msGet m k2 := by
  induction m with
  | nil => by_cases h : k = k2 <;> simp [msSet, msGet, h]
  | cons hd tl ih =>
    obtain ⟨k3, v3⟩ := hd
    by_cases h3 : k3 = k
    · subst h3
      by_cases h : k3 = k2 <;> simp [msSet, msGet, h]
    · by_cases h : k3 = k2
      · subst h
        have hk : k ≠ k3 := fun hh => h3 hh.symm
        simp [msSet, msGet, h3, hk]
      · simp [msSet, msGet, h3, h, ih]

theorem msGet_foldl_set {V : Type} (f : TokenMetadata → V)
    (tokens : List TokenMetadata) :
    ∀ (acc : List (BigNumber × V)) (id : BigNumber),
    msGet (tokens.foldl (fun a m => msSet a m.token_id (f m)) acc) id =
      match lastMatch tokens id with
      | some t => some (f t)
      | none => msGet acc id := by
  induction tokens with
  | nil => intro acc id; simp [lastMatch]
  | cons t ts ih =>
    intro acc id
    simp only [List.foldl_cons, lastMatch]
    rw [ih]
    cases lastMatch ts id with
    | some u => simp
    | none =>
      simp only [msGet_msSet]
      by_cases h : t.token_id = id <;> simp [h]

/-- The pair-valued fold in `createNftStorage` is the pair of the two
single-map folds. -/
theorem createNftStorage_foldl_pair (tokens : List TokenMetadata)
    (owner : String) :
    ∀ (l : List (BigNumber × String)) (md : List (BigNumber × TokenMetadata)),
    tokens.foldl
      (fun (acc : List (BigNumber × String) × List (BigNumber × TokenMetadata))
           meta =>
        (msSet acc.1 meta.token_id owner, msSet acc.2 meta.token_id meta))
      (l, md) =
    (tokens.foldl (fun a m => msSet a m.token_id owner) l,
     tokens.foldl (fun a m => msSet a m.token_id m) md) := by
  induction tokens with
  | nil => intro l md; rfl
  | cons t ts ih => intro l md; simp only [List.foldl_cons]; exact ih _ _

theorem lastMatch_eq_none (tokens : List TokenMetadata) (id : BigNumber)
    (h : ∀ u ∈ tokens, u.token_id ≠ id) : lastMatch tokens id = none := by
  induction tokens with
  | nil => rfl
  | cons t ts ih =>
    have ht : t.token_id ≠ id := h t (by simp)
    have : lastMatch ts id = none := ih (fun u hu => h u (by simp [hu]))
    simp [lastMatch, this, ht]

theorem lastMatch_of_pairwise (tokens : List TokenMetadata)
    (h : tokens.Pairwise (fun a b => a.token_id ≠ b.token_id)) :
    ∀ t ∈ tokens, lastMatch tokens t.token_id = some t := by
  induction tokens with
  | nil => intro t ht; cases ht
  | cons u us ih =>
    intro t ht
    rcases List.mem_cons.1 ht with rfl | hmem
    · have : lastMatch us t.token_id = none :=
        lastMatch_eq_none us t.token_id
          (fun w hw heq => (List.pairwise_cons.1 h).1 w hw heq.symm)
      simp [lastMatch, this]
    · have := ih (List.pairwise_cons.1 h).2 t hmem
      simp [lastMatch, this]

/-- C3: `createNftStorage` returns a storage whose operator map is empty,
whose ledger maps a token id to the owner exactly when some listed token
has that id, and whose token_metadata maps a token id to the LAST listed
metadata with that id (later duplicates silently overwrite earlier ones);
in particular with pairwise-distinct token ids every listed token id maps
to the owner in the ledger and to its own metadata entry. -/
theorem createNftStorage_ledger_operators_metadata
    (tokens : List TokenMetadata) (owner : String) :
    (createNftStorage tokens owner).operators = [] ∧
    (∀ id, msGet (createNftStorage tokens owner).token_metadata id =
      lastMatch tokens id) ∧
    (∀ id, msGet (createNftStorage tokens owner).ledger id =
      (lastMatch tokens id).map (fun _ => owner)) ∧
    (tokens.Pairwise (fun a b => a.token_id ≠ b.token_id) →
      ∀ t ∈ tokens,
        msGet (createNftStorage tokens owner).token_metadata t.token_id = some t ∧
        msGet (createNftStorage tokens owner).ledger t.token_id = some owner) := by
  have hpair := createNftStorage_foldl_pair tokens owner ([] : List (BigNumber × String)) ([] : List (BigNumber × TokenMetadata))
  have hmd : ∀ id, msGet (createNftStorage tokens owner).token_metadata id =
      lastMatch tokens id := by
    intro id
    show msGet (tokens.foldl _ (([] : List (BigNumber × String)), ([] : List (BigNumber × TokenMetadata)))).2 id = _
    rw [hpair]
    rw [msGet_foldl_set (fun m => m) tokens [] id]
    cases lastMatch tokens id <;> simp [msGet]
  have hld : ∀ id, msGet (createNftStorage tokens owner).ledger id =
      (lastMatch tokens id).map (fun _ => owner) := by
    intro id
    show msGet (tokens.foldl _ (([] : List (BigNumber × String)), ([] : List (BigNumber × TokenMetadata)))).1 id = _
    rw [hpair]
    rw [msGet_foldl_set (fun _ => owner) tokens [] id]
    cases lastMatch tokens id <;> simp [msGet]
  refine ⟨rfl, hmd, hld, ?_⟩
  intro hdist t ht
  have hlast := lastMatch_of_pairwise tokens hdist t ht
  exact ⟨by rw [hmd, hlast], by rw [hld, hlast]; rfl⟩

/-- Closed instance of the C3 theorem on two concrete tokens with distinct
ids, discharging the pairwise-distinctness hypothesis. -/
theorem createNftStorage_ledger_operators_metadata_inst :
    msGet (createNftStorage
        [{ token_id := ⟨some 0⟩, symbol := some "T0", name := some "Token0"
           decimals := ⟨some 0⟩, extras := [] },
         { token_id := ⟨some 1⟩, symbol := some "T1", name := some "Token1"
           decimals := ⟨some 0⟩, extras := [] }] "tz1owner").token_metadata
        ⟨some 1⟩ =
      some { token_id := ⟨some 1⟩, symbol := some "T1", name := some "Token1"
             decimals := ⟨some 0⟩, extras := [] } ∧
    msGet (createNftStorage
        [{ token_id := ⟨some 0⟩, symbol := some "T0", name := some "Token0"
           decimals := ⟨some 0⟩, extras := [] },
         { token_id := ⟨some 1⟩, symbol := some "T1", name := some "Token1"
           decimals := ⟨some 0⟩, extras := [] }] "tz1owner").ledger
        ⟨some 1⟩ = some "tz1owner" :=
  createNftStorage_ledger_operators_metadata _ "tz1owner" |>.2.2.2
    (by simp [List.pairwise_cons])
    { token_id := ⟨some 1⟩, symbol := some "T1", name := some "Token1"
      decimals := ⟨some 0⟩, extras := [] }
    (by simp)

/-! ## Claim C10: parseTokens -/

/-- Compiling a list of descriptors by repeated `parseTokens` (a left fold,
the way a CLI accumulates them) prepends each token, so the result is the
descriptor tokens in reverse order, on top of the untouched initial list. -/
theorem parseTokens_foldl (ds : List String) :
    ∀ tokens : List TokenMetadata,
    ds.foldl (fun acc d => parseTokens d acc) tokens =
      (ds.map parsedToken).reverse ++ tokens := by
  induction ds with
  | nil => intro tokens; simp
  | cons d ds ih =>
    intro tokens
    simp only [List.foldl_cons, List.map_cons, List.reverse_cons]
    rw [ih (parseTokens d tokens)]
    simp [parseTokens]

/-- C10: `parseTokens` prepends the newly parsed token, leaving the
existing tokens unchanged and in order (so repeated compilation yields
reverse descriptor-entry order), the new token has decimals 0, and its
extras contain an `ipfs_cid` entry exactly when the descriptor has a
fourth comma-separated field that is non-empty after trimming, in which
case the entry holds that field. -/
theorem parseTokens_prepend_decimals_extras (descriptor : String)
    (tokens : List TokenMetadata) (ds : List String) :
    parseTokens descriptor tokens = parsedToken descriptor :: tokens ∧
    (parsedToken descriptor).decimals = BigNumber.zero ∧
    msGet (parsedToken descriptor).extras "ipfs_cid" =
      (((splitOnComma descriptor).map trimStr).get? 3).bind
        (fun c => if c = "" then none else some c) ∧
    ds.foldl (fun acc d => parseTokens d acc) tokens =
      (ds.map parsedToken).reverse ++ tokens := by
  refine ⟨rfl, rfl, ?_, parseTokens_foldl ds tokens⟩
  show msGet
      (match ((splitOnComma descriptor).map trimStr).get? 3 with
        | some c => if c = "" then [] else msSet [] "ipfs_cid" c
        | none => []) "ipfs_cid" = _
  cases h : ((splitOnComma descriptor).map trimStr).get? 3 with
  | none => simp [msGet]
  | some c =>
    by_cases hc : c = "" <;> simp [hc, msSet, msGet]

/-! ## Configuration store and toolkit factory -/

/-- The Configstore key-value store as read by this core: string keys to
string values. -/
structure Configstore where
  entries : List (String × String)
deriving DecidableEq, Repr

def Configstore.get (c : Configstore) (k : String) : Option String :=
  msGet c.entries k

def Configstore.set (c : Configstore) (k v : String) : Configstore :=
  ⟨msSet c.entries k v⟩

/-- Modelled from the spec: `activeNetworkKey` (config-util, not in src)
derives a network-scoped key, obtained here from the `activeNetwork`
configuration value. -/
def activeNetworkKey (c : Configstore) : String :=
  (c.get "activeNetwork").getD ""

/-- Modelled from the spec: `inspectorKey` (config-util, not in src) is the
network-scoped configuration key under which the inspector contract address
is persisted. -/
def inspectorKey (c : Configstore) : String :=
  activeNetworkKey c ++ ".inspector"

/-- The execution handle built by the toolkit factory: the data the claims
observe, namely the bound RPC endpoint and the fixed confirmation-polling
interval. -/
structure TezosToolkit where
  rpc : String
  confirmationPollingIntervalSecond : Nat
deriving DecidableEq, Repr

/-- Embedding of `createToolkitFromSigner` (src/contracts.ts, lines 27-48):
reads `<activeNetworkKey>.providerUrl`; a missing (or falsy, i.e. empty)
value throws the not-configured error, otherwise the toolkit is configured
with the provider URL and `confirmationPollingIntervalSecond: 5`.  The
signer is opaque to this embedding. -/
def createToolkitFromSigner (signer : Unit) (config : Configstore) :
    Except String TezosToolkit :=
  let _ := signer
  let providerUrl := config.get (activeNetworkKey config ++ ".providerUrl")
  match providerUrl with
  | none =>
    .error ("network provider for " ++ (config.get "activeNetwork").getD ""
      ++ " URL is not configured")
  | some u =>
    if u = "" then
      .error ("network provider for " ++ (config.get "activeNetwork").getD ""
        ++ " URL is not configured")
    else
      .ok { rpc := u, confirmationPollingIntervalSecond := 5 }

/-! ## Alias resolution (spec-modelled) and operator lists -/

/-- Modelled from the spec: a syntactic validity test for a literal ledger
address (Tezos account or contract address shapes). -/
def isValidAddress (s : String) : Bool :=
  match s.toList with
  | 't' :: 'z' :: _ => s.toList.length = 36
  | 'K' :: 'T' :: '1' :: _ => s.toList.length = 36
  | _ => false

/-- Modelled from the spec: `resolveAlias2Address` (config-aliases, not in
src) maps a configured alias to its address, returns an already-valid
address unchanged, and fails when the token is neither. -/
def resolveAlias2Address (aliases : List (String × String)) (token : String) :
    Except String String :=
  match msGet aliases token with
  | some addr => .ok addr
  | none =>
    if isValidAddress token then .ok token
    else .error ("alias or address not found: " ++ token)

/-- Model of `Promise.all` over already-determined outcomes: succeeds with
the list of values when every element succeeded, otherwise fails with a
failing element's error and no partial list. -/
def promiseAll {E A : Type} : List (Except E A) → Except E (List A)
  | [] => .ok []
  | x :: xs =>
    match x with
    | .error e => .error e
    | .ok a =>
      match promiseAll xs with
      | .error e => .error e
      | .ok rest => .ok (a :: rest)

/-- Embedding of the per-entry body of `resolveOperators`
(src/contracts.ts, lines 291-316): split at commas (no trimming in the
source), resolve the first field, build the token id from the second (which
may be absent, giving NaN); a resolution failure is logged and rethrown,
failing this entry. -/
def resolveOperator (owner : String)
    (resolve : String → Except String String) (o : String) :
    Except String OperatorParam :=
  let parts := splitOnComma o
  match resolve (parts.getD 0 "") with
  | .error e => .error e
  | .ok operator =>
    .ok { owner := owner, operator := operator
          token_id := BigNumber.ofOptionString (parts.get? 1) }

/-- Embedding of `resolveOperators`: every entry is resolved independently
and the outcomes are joined with `Promise.all`. -/
def resolveOperators (owner : String) (operators : List String)
    (resolve : String → Except String String) :
    Except String (List OperatorParam) :=
  promiseAll (operators.map (resolveOperator owner resolve))

theorem promiseAll_error {E A : Type} (l : List (Except E A))
    (h : ∃ x ∈ l, ∃ e, x = .error e) : ∃ e, promiseAll l = .error e := by
  induction l with
  | nil => obtain ⟨x, hx, _⟩ := h; cases hx
  | cons x xs ih =>
    obtain ⟨y, hy, e, hye⟩ := h
    rcases List.mem_cons.1 hy with rfl | hmem
    · exact ⟨e, by simp [promiseAll, hye]⟩
    · cases x with
      | error e2 => exact ⟨e2, by simp [promiseAll]⟩
      | ok a =>
        obtain ⟨e3, he3⟩ := ih ⟨y, hmem, e, hye⟩
        exact ⟨e3, by simp [promiseAll, he3]⟩

theorem promiseAll_ok {E A : Type} (l : List (Except E A)) :
    ∀ res, promiseAll l = .ok res → ∀ x ∈ l, ∃ a, x = .ok a ∧ a ∈ res := by
  induction l with
  | nil => intro res _ x hx; cases hx
  | cons y ys ih =>
    intro res hres x hx
    cases y with
    | error e => simp [promiseAll] at hres
    | ok a =>
      cases hpa : promiseAll ys with
      | error e => rw [promiseAll, hpa] at hres; cases hres
      | ok rest =>
        rw [promiseAll, hpa] at hres
        cases hres
        rcases List.mem_cons.1 hx with rfl | hmem
        · exact ⟨a, rfl, by simp⟩
        · obtain ⟨b, hb, hbm⟩ := ih rest hpa x hmem
          exact ⟨b, hb, by simp [hbm]⟩

/-- Alias table used for the concrete operator-list instance in C4: the
alias `bob` is configured, nothing else. -/
def c4Aliases : List (String × String) :=
  [("bob", "tz1aaaaaaaaaaaaaaaaaaaaaaaaaaaaaaaaa")]

/-- C4: `resolveOperators` resolves each entry independently (each outcome
is a function of that entry alone) and joins them all-or-nothing: if any
entry fails to parse or resolve, the whole call fails and no partial list
is returned, while on success every entry's resolved parameter is in the
result; in particular on `["bob,1", "!!!bad!!!"]` with only the alias
`bob` configured, the whole call fails. -/
theorem resolveOperators_all_or_nothing (owner : String)
    (operators : List String) (resolve : String → Except String String) :
    ((∃ o ∈ operators, ∃ e, resolveOperator owner resolve o = .error e) →
      ∃ e, resolveOperators owner operators resolve = .error e) ∧
    (∀ res, resolveOperators owner operators resolve = .ok res →
      ∀ o ∈ operators, ∃ p, resolveOperator owner resolve o = .ok p ∧ p ∈ res) ∧
    (∃ e, resolveOperators owner ["bob,1", "!!!bad!!!"]
      (resolveAlias2Address c4Aliases) = .error e) := by
  refine ⟨?_, ?_, ?_⟩
  · intro h
    obtain ⟨o, ho, e, he⟩ := h
    exact promiseAll_error _ ⟨resolveOperator owner resolve o,
      List.mem_map_of_mem _ ho, e, he⟩
  · intro res hres o ho
    exact promiseAll_ok _ res hres (resolveOperator owner resolve o)
      (List.mem_map_of_mem _ ho)
  · exact ⟨"alias or address not found: !!!bad!!!", rfl⟩

/-- Closed instance of the C4 theorem: the concrete conjunct for
`["bob,1", "!!!bad!!!"]`. -/
theorem resolveOperators_all_or_nothing_inst :
    ∃ e, resolveOperators "tz1owner" ["bob,1", "!!!bad!!!"]
      (resolveAlias2Address c4Aliases) = .error e :=
  (resolveOperators_all_or_nothing "tz1owner" ["bob,1", "!!!bad!!!"]
    (resolveAlias2Address c4Aliases)).2.2

/-- C7: `createToolkitFromSigner` fails when no provider URL is configured
for the active network, and on a configured (non-empty) provider URL it
returns a handle bound to that URL with the confirmation polling interval
fixed at 5 seconds. -/
theorem createToolkitFromSigner_provider_and_interval (signer : Unit)
    (config : Configstore) :
    (config.get (activeNetworkKey config ++ ".providerUrl") = none →
      ∃ m, createToolkitFromSigner signer config = .error m) ∧
    (∀ u, config.get (activeNetworkKey config ++ ".providerUrl") = some u →
      u ≠ "" →
      createToolkitFromSigner signer config =
        .ok { rpc := u, confirmationPollingIntervalSecond := 5 }) := by
  constructor
  · intro h
    refine ⟨"network provider for " ++ (config.get "activeNetwork").getD ""
      ++ " URL is not configured", ?_⟩
    simp [createToolkitFromSigner, h]
  · intro u hu hne
    simp [createToolkitFromSigner, hu, hne]

/-- Closed instance of the C7 theorem at a configuration with a provider
URL for the active network and at one without. -/
theorem createToolkitFromSigner_provider_and_interval_inst :
    createToolkitFromSigner ()
        ⟨[("activeNetwork", "sandbox"),
          ("sandbox.providerUrl", "http://localhost:20000")]⟩ =
      .ok { rpc := "http://localhost:20000"
            confirmationPollingIntervalSecond := 5 } ∧
    ∃ m, createToolkitFromSigner () ⟨[("activeNetwork", "sandbox")]⟩ =
      .error m :=
  ⟨(createToolkitFromSigner_provider_and_interval ()
      ⟨[("activeNetwork", "sandbox"),
        ("sandbox.providerUrl", "http://localhost:20000")]⟩).2
      "http://localhost:20000" (by decide) (by decide),
   (createToolkitFromSigner_provider_and_interval ()
      ⟨[("activeNetwork", "sandbox")]⟩).1 (by decide)⟩

/-! ## Origination orchestrator -/

/-- The origination parameter built by `originateContract`: a literal
initial expression gives `{code, init}`, a structured storage value gives
`{code, storage}` (mutually exclusive). -/
inductive StorageValue where
  | initExpr (s : String)
  | storageVal (v : NftStorage)
deriving DecidableEq, Repr

structure OrigParam where
  code : String
  init : Option String
  storage : Option NftStorage
deriving DecidableEq, Repr

/-- `typeof storage === 'string' ? { code, init: storage } : { code, storage }`. -/
def mkOrigParam (code : String) (s : StorageValue) : OrigParam :=
  match s with
  | .initExpr str => { code := code, init := some str, storage := none }
  | .storageVal v => { code := code, init := none, storage := some v }

/-- Embedding of `originateContract` (src/contracts.ts, lines 318-335).
The external network is a stream of submission outcomes indexed by attempt
number (`submit p k` is the outcome of the k-th submission of parameter
`p`, covering the originate call and its confirmation wait); the source
submits once, returning the new contract address, and on failure logs a
diagnostic naming the contract label and rejects with the original error.
The returned pair is (outcome, emitted diagnostics). -/
def originateContract {E : Type}
    (submit : OrigParam → Nat → Except E String)
    (code : String) (storage : StorageValue) (name : String) :
    Except E String × List String :=
  let origParam := mkOrigParam code storage
  match submit origParam 0 with
  | .ok address => (.ok address, [])
  | .error e => (.error e, [name ++ " origination error"])

/-- C6: on a rejected submission `originateContract` rejects with the
original error as cause, emits a diagnostic carrying the supplied label,
and consults only the first submission outcome — the result is unchanged
under any modification of later attempts, i.e. it submits exactly once
with no automatic retry. -/
theorem originateContract_failure_label_no_retry {E : Type}
    (submit : OrigParam → Nat → Except E String)
    (code : String) (storage : StorageValue) (name : String) (e : E)
    (h : submit (mkOrigParam code storage) 0 = .error e) :
    (originateContract submit code storage name).1 = .error e ∧
    (originateContract submit code storage name).2 =
      [name ++ " origination error"] ∧
    (∀ submit2 : OrigParam → Nat → Except E String,
      submit2 (mkOrigParam code storage) 0 =
        submit (mkOrigParam code storage) 0 →
      originateContract submit2 code storage name =
        originateContract submit code storage name) := by
  refine ⟨by simp [originateContract, h], by simp [originateContract, h], ?_⟩
  intro submit2 h2
  simp [originateContract, h2]

/-- Closed instance of the C6 theorem on an always-rejected submission. -/
theorem originateContract_failure_label_no_retry_inst :
    (originateContract
        (fun _ _ => (.error "rejected" : Except String String))
        "contract-code" (.initExpr "(Left Unit)") "inspector").1 =
      .error "rejected" ∧
    (originateContract
        (fun _ _ => (.error "rejected" : Except String String))
        "contract-code" (.initExpr "(Left Unit)") "inspector").2 =
      ["inspector origination error"] :=
  ⟨(originateContract_failure_label_no_retry _ "contract-code"
      (.initExpr "(Left Unit)") "inspector" "rejected" rfl).1,
   (originateContract_failure_label_no_retry _ "contract-code"
      (.initExpr "(Left Unit)") "inspector" "rejected" rfl).2.1⟩

/-! ## mintNfts -/

/-- The externally observable steps `mintNfts` performs, in order. -/
inductive MintStep where
  | resolveSigner
  | buildToolkit
  | loadCode
  | submitOrigination
deriving DecidableEq, Repr

/-- The external collaborators of `mintNfts`: the configuration store, the
signer resolution outcome, the signer's public key hash, the loaded
contract code, and the origination submission outcomes. -/
structure MintEnv where
  config : Configstore
  signerOk : String → Except String Unit
  publicKeyHash : String
  code : String
  submit : OrigParam → Nat → Except String String

/-- Embedding of `mintNfts` (src/contracts.ts, lines 56-77): an empty token
list is rejected up front with
`'there are no token definitions provided'`; otherwise the signer is
resolved, the toolkit built, the contract code loaded, the initial storage
encoded and the origination submitted.  The second component records which
steps were reached. -/
def mintNfts (owner : String) (tokens : List TokenMetadata)
    (env : MintEnv) : Except String Unit × List MintStep :=
  if tokens.length = 0 then
    (.error "there are no token definitions provided", [])
  else
    match env.signerOk owner with
    | .error e => (.error e, [.resolveSigner])
    | .ok () =>
      match createToolkitFromSigner () env.config with
      | .error e => (.error e, [.resolveSigner, .buildToolkit])
      | .ok _tz =>
        let ownerAddress := env.publicKeyHash
        let storage := createNftStorage tokens ownerAddress
        match (originateContract env.submit env.code
            (.storageVal storage) "nft").1 with
        | .error e =>
          (.error e, [.resolveSigner, .buildToolkit, .loadCode,
            .submitOrigination])
        | .ok _addr =>
          (.ok (), [.resolveSigner, .buildToolkit, .loadCode,
            .submitOrigination])

/-- C9: `mintNfts` on an empty token-metadata list rejects immediately with
the no-token-definitions error, having performed no step at all: no signer
resolution, no toolkit construction, no origination submission. -/
theorem mintNfts_empty_rejects_immediately (owner : String) (env : MintEnv) :
    mintNfts owner [] env =
      (.error "there are no token definitions provided", []) := rfl

/-! ## showBalances -/

structure BalanceOfRequest where
  token_id : BigNumber
  owner : String
deriving DecidableEq, Repr

structure BalanceOfResponse where
  request : BalanceOfRequest
  balance : BigNumber
deriving DecidableEq, Repr

/-- Decidable equality for `Except` outcomes, needed to evaluate concrete
instances by `decide`. -/
instance instDecEqExcept {E A : Type} [DecidableEq E] [DecidableEq A] :
    DecidableEq (Except E A) := fun x y =>
  match x, y with
  | .error a, .error b =>
    if h : a = b then .isTrue (by rw [h])
    else .isFalse (fun hh => h (Except.error.inj hh))
  | .error _, .ok _ => .isFalse (fun hh => Except.noConfusion hh)
  | .ok _, .error _ => .isFalse (fun hh => Except.noConfusion hh)
  | .ok a, .ok b =>
    if h : a = b then .isTrue (by rw [h])
    else .isFalse (fun hh => h (Except.ok.inj hh))

/-- External collaborators of `showBalances`: configuration, alias table,
signer resolution outcome, and the combined outcome of the inspector
round-trip (contract lookup, query send, confirmation, storage read);
`.ok none` models an inspector storage whose `state` is not an array. -/
structure ShowBalancesEnv where
  config : Configstore
  aliases : List (String × String)
  signerOk : String → Except String Unit
  queryOutcome : Except String (Option (List BalanceOfResponse))

/-- The observable outcome of `showBalances`: the promise result, the
diagnostics printed, and whether a balance query was issued to the
inspector contract. -/
structure ShowBalancesOutcome where
  result : Except String Unit
  log : List String
  queried : Bool
deriving DecidableEq, Repr

/-- Embedding of `showBalances` (src/contracts.ts, lines 109-146): resolve
the signer, build the toolkit, resolve owner and nft aliases, build the
requests; then, if the network-scoped inspector address is absent from the
configuration (or falsy), print a diagnostic, suggest the bootstrap
command and RETURN NORMALLY without querying; otherwise run the inspector
query and reject only on a non-array storage state. -/
def showBalances (signer nft owner : String) (tokens : List String)
    (env : ShowBalancesEnv) : ShowBalancesOutcome :=
  match env.signerOk signer with
  | .error e => { result := .error e, log := [], queried := false }
  | .ok () =>
    match createToolkitFromSigner () env.config with
    | .error e => { result := .error e, log := [], queried := false }
    | .ok _tz =>
      match resolveAlias2Address env.aliases owner with
      | .error e => { result := .error e, log := [], queried := false }
      | .ok ownerAddress =>
        match resolveAlias2Address env.aliases nft with
        | .error e => { result := .error e, log := [], queried := false }
        | .ok _nftAddress =>
          let _requests := tokens.map
            (fun t => ({ token_id := BigNumber.ofString t
                         owner := ownerAddress } : BalanceOfRequest))
          match env.config.get (inspectorKey env.config) with
          | none =>
            { result := .ok ()
              log := ["Cannot find deployed balance inspector contract.",
                      "suggested command: bootstrap"]
              queried := false }
          | some inspectorAddress =>
            if inspectorAddress = "" then
              { result := .ok ()
                log := ["Cannot find deployed balance inspector contract.",
                        "suggested command: bootstrap"]
                queried := false }
            else
              match env.queryOutcome with
              | .error e => { result := .error e, log := [], queried := true }
              | .ok none =>
                { result := .error "Invalid inspector storage state Empty."
                  log := ["invalid inspector storage state"]
                  queried := true }
              | .ok (some _state) =>
                { result := .ok (), log := ["requested NFT balances:"]
                  queried := true }

/-- A concrete environment whose configuration has a provider URL but no
inspector address, with all aliases resolving. -/
def c8Env : ShowBalancesEnv :=
  { config := ⟨[("activeNetwork", "sandbox"),
                ("sandbox.providerUrl", "http://localhost:20000")]⟩
    aliases := [("bob", "tz1aaaaaaaaaaaaaaaaaaaaaaaaaaaaaaaaa"),
                ("nft", "KT1bbbbbbbbbbbbbbbbbbbbbbbbbbbbbbbbb")]
    signerOk := fun _ => .ok ()
    queryOutcome := .ok (some []) }

/-- C8 counterexample: with the inspector address absent from the
configuration, `showBalances` COMPLETES NORMALLY (the promise resolves)
after printing a diagnostic, without issuing any query — it does not fail
with an inspector-not-deployed error. -/
theorem showBalances_missing_inspector_completes_normally :
    (showBalances "bob" "nft" "bob" ["0"] c8Env).result = .ok () ∧
    (showBalances "bob" "nft" "bob" ["0"] c8Env).queried = false ∧
    c8Env.config.get (inspectorKey c8Env.config) = none := by
  decide

/-- C8 (amended): whenever the signer resolves, the toolkit builds and the
owner and nft aliases resolve but the network-scoped inspector address is
absent from the configuration, `showBalances` prints the
cannot-find-inspector diagnostic with a suggestion to run bootstrap and
returns normally without issuing any balance query. -/
theorem showBalances_missing_inspector_early_return
    (signer nft owner : String) (tokens : List String)
    (env : ShowBalancesEnv)
    (hsig : env.signerOk signer = .ok ())
    (htk : ∃ tz, createToolkitFromSigner () env.config = .ok tz)
    (hown : ∃ a, resolveAlias2Address env.aliases owner = .ok a)
    (hnft : ∃ a, resolveAlias2Address env.aliases nft = .ok a)
    (hins : env.config.get (inspectorKey env.config) = none) :
    showBalances signer nft owner tokens env =
      { result := .ok ()
        log := ["Cannot find deployed balance inspector contract.",
                "suggested command: bootstrap"]
        queried := false } := by
  obtain ⟨tz, htz⟩ := htk
  obtain ⟨a1, ha1⟩ := hown
  obtain ⟨a2, ha2⟩ := hnft
  simp [showBalances, hsig, htz, ha1, ha2, hins]

/-- Closed instance of the amended C8 theorem at `c8Env`. -/
theorem showBalances_missing_inspector_early_return_inst :
    showBalances "bob" "nft" "bob" ["0"] c8Env =
      { result := .ok ()
        log := ["Cannot find deployed balance inspector contract.",
                "suggested command: bootstrap"]
        queried := false } :=
  showBalances_missing_inspector_early_return "bob" "nft" "bob" ["0"] c8Env
    rfl ⟨_, rfl⟩ ⟨_, rfl⟩ ⟨_, rfl⟩ rfl

/-! ## Bootstrap / readiness orchestrator (src/unnamed/part_000) -/

/-- Failure modes of the bootstrap path.  `rpcUnreachable` is the error the
block-header probe keeps raising while the network is down: when the retry
budget is exhausted the retry library rethrows it, so it is the
network-unreachable error surfaced by `bootstrap`. -/
inductive BootError where
  | sandboxStart
  | toolkitErr (msg : String)
  | rpcUnreachable
  | originationErr (msg : String)
deriving DecidableEq, Repr

/-- Model of the async-retry library: `retryGo f r k` runs attempt `k` of
the probe and, on failure, makes up to `r` further attempts; so
`retryGo f r 0` makes at most `r + 1` attempts.  The last error is
rethrown when the budget is exhausted. -/
def retryGo (f : Nat → Except BootError Unit) :
    Nat → Nat → Except BootError Unit
  | 0, k => f k
  | r + 1, k =>
    match f k with
    | .ok () => .ok ()
    | .error _ => retryGo f r (k + 1)

/-- `retry(fn, { retries: n })`: the initial attempt plus up to `n`
retries. -/
def asyncRetry (retries : Nat) (f : Nat → Except BootError Unit) :
    Except BootError Unit :=
  retryGo f retries 0

/-- External collaborators of `bootstrap`: the configuration store, the
sandbox start script outcome, signer resolution outcomes, the per-attempt
outcome of `toolkit.rpc.getBlockHeader({ block: '2' })`, the inspector
contract code and the origination submission outcomes. -/
structure BootEnv where
  config : Configstore
  startScript : Except Unit Unit
  signerOk : String → Except BootError Unit
  header : Nat → Except BootError Unit
  inspectorCode : String
  submit : OrigParam → Nat → Except BootError String

/-- Embedding of `startSandbox` (bootstrap module, lines 28-58): run the
start-sandbox shell script (fail fast on a non-zero exit), build a toolkit
for the fixed `bob` identity, then poll the historical block header with
`retry(..., { retries: 8 })`. -/
def startSandbox (env : BootEnv) : Except BootError Unit :=
  match env.startScript with
  | .error _ => .error .sandboxStart
  | .ok () =>
    match env.signerOk "bob" with
    | .error e => .error e
    | .ok () =>
      match createToolkitFromSigner () env.config with
      | .error m => .error (.toolkitErr m)
      | .ok _toolkit => asyncRetry 8 env.header

/-- Embedding of `originateInspector` (src/contracts.ts, lines 50-54):
originate the loaded inspector code with literal initial storage
`(Left Unit)` under the label `inspector`. -/
def originateInspector (submit : OrigParam → Nat → Except BootError String)
    (code : String) : Except BootError String × List String :=
  originateContract submit code (.initExpr "(Left Unit)") "inspector"

/-- Embedding of `originateBalanceInspector` (bootstrap module, lines
80-96): build a toolkit for the originating alias, originate the inspector
and persist its address under the network-scoped inspector key. -/
def originateBalanceInspector (env : BootEnv) (origAlias : String) :
    Except BootError Configstore :=
  match env.signerOk origAlias with
  | .error e => .error e
  | .ok () =>
    match createToolkitFromSigner () env.config with
    | .error m => .error (.toolkitErr m)
    | .ok _tezos =>
      match (originateInspector env.submit env.inspectorCode).1 with
      | .error e => .error e
      | .ok inspectorAddress =>
        .ok (env.config.set (inspectorKey env.config) inspectorAddress)

/-- Embedding of `bootstrap` (bootstrap module, lines 8-20): when the
active network is the sandbox, start it (which includes the readiness
probe), then originate the balance inspector as `bob`; any error is logged
and the same error is rethrown, so the `Except` value is unchanged.  On
success the updated configuration is returned. -/
def bootstrap (env : BootEnv) : Except BootError Configstore :=
  match
    (if env.config.get "activeNetwork" = some "sandbox" then
      startSandbox env
    else .ok ()) with
  | .error e => .error e
  | .ok () => originateBalanceInspector env "bob"

theorem retryGo_ok (f : Nat → Except BootError Unit) (r k : Nat)
    (h : f k = .ok ()) : retryGo f r k = .ok () := by
  cases r <;> simp [retryGo, h]

theorem retryGo_step (f : Nat → Except BootError Unit) (r k : Nat)
    (e : BootError) (h : f k = .error e) :
    retryGo f (r + 1) k = retryGo f r (k + 1) := by
  simp [retryGo, h]

/-- If the probe succeeds at the `n`-th attempt (0-indexed) after failing
at all earlier ones and `n` is within the budget, the retried call
succeeds. -/
theorem retryGo_ok_of_eventually (f : Nat → Except BootError Unit) :
    ∀ n r k, n ≤ r → (∀ j, j < n → ∃ e, f (k + j) = .error e) →
    f (k + n) = .ok () → retryGo f r k = .ok () := by
  intro n
  induction n with
  | zero => intro r k _ _ hok; exact retryGo_ok f r k (by simpa using hok)
  | succ m ih =>
    intro r k hle hfail hok
    obtain ⟨r2, rfl⟩ : ∃ r2, r = r2 + 1 :=
      ⟨r - 1, by omega⟩
    obtain ⟨e, he⟩ := hfail 0 (by omega)
    rw [retryGo_step f r2 k e (by simpa using he)]
    refine ih r2 (k + 1) (by omega) ?_ ?_
    · intro j hj
      obtain ⟨e2, he2⟩ := hfail (j + 1) (by omega)
      exact ⟨e2, by rw [show k + 1 + j = k + (j + 1) by omega]; exact he2⟩
    · rw [show k + 1 + m = k + (m + 1) by omega]; exact hok

/-- If every attempt within the budget fails with the unreachable error,
the retried call exhausts the budget and rethrows it. -/
theorem retryGo_error_of_all_fail (f : Nat → Except BootError Unit) :
    ∀ r k, (∀ j, j ≤ r → f (k + j) = .error .rpcUnreachable) →
    retryGo f r k = .error .rpcUnreachable := by
  intro r
  induction r with
  | zero => intro k h; simpa [retryGo] using h 0 (by omega)
  | succ m ih =>
    intro k h
    rw [retryGo_step f m k .rpcUnreachable (by simpa using h 0 (by omega))]
    refine ih (k + 1) ?_
    intro j hj
    rw [show k + 1 + j = k + (j + 1) by omega]
    exact h (j + 1) (by omega)

/-- C5: the readiness probe of `bootstrap` is bounded.  For any sandbox
environment whose other steps succeed: if the block-header request fails
the first 7 times and succeeds on the 8th attempt, `bootstrap` completes
without raising the network-unreachable error; and in any sandbox
environment (start script and signer fine, toolkit built) whose
block-header request fails 9 consecutive times, `bootstrap` raises the
network-unreachable error — there is no infinite retry. -/
theorem bootstrap_readiness_probe_bounded (env1 env2 : BootEnv)
    (hnet1 : env1.config.get "activeNetwork" = some "sandbox")
    (hnet2 : env2.config.get "activeNetwork" = some "sandbox")
    (hstart1 : env1.startScript = .ok ())
    (hstart2 : env2.startScript = .ok ())
    (hsig1 : ∀ a, env1.signerOk a = .ok ())
    (hsig2 : ∀ a, env2.signerOk a = .ok ())
    (htk1 : ∃ tk, createToolkitFromSigner () env1.config = .ok tk)
    (htk2 : ∃ tk, createToolkitFromSigner () env2.config = .ok tk)
    (horig1 : ∃ addr,
      (originateInspector env1.submit env1.inspectorCode).1 = .ok addr)
    (hfail1 : ∀ k, k < 7 → env1.header k = .error .rpcUnreachable)
    (hok1 : env1.header 7 = .ok ())
    (hfail2 : ∀ k, k < 9 → env2.header k = .error .rpcUnreachable) :
    (∃ c, bootstrap env1 = .ok c) ∧
    bootstrap env2 = .error .rpcUnreachable := by
  obtain ⟨tk1, htk1⟩ := htk1
  obtain ⟨tk2, htk2⟩ := htk2
  obtain ⟨addr1, horig1⟩ := horig1
  constructor
  · have hretry : asyncRetry 8 env1.header = .ok () := by
      refine retryGo_ok_of_eventually env1.header 7 8 0 (by omega) ?_ ?_
      · intro j hj
        exact ⟨.rpcUnreachable, by simpa using hfail1 j hj⟩
      · simpa using hok1
    refine ⟨env1.config.set (inspectorKey env1.config) addr1, ?_⟩
    simp [bootstrap, hnet1, startSandbox, hstart1, hsig1, htk1, hretry,
      originateBalanceInspector, horig1]
  · have hretry : asyncRetry 8 env2.header = .error .rpcUnreachable := by
      refine retryGo_error_of_all_fail env2.header 8 0 ?_
      intro j hj
      simpa using hfail2 j (by omega)
    simp [bootstrap, hnet2, startSandbox, hstart2, hsig2, htk2, hretry]

/-- Sandbox environment whose block-header probe fails the first 7 times
and succeeds on the 8th attempt. -/
def c5Env1 : BootEnv :=
  { config := ⟨[("activeNetwork", "sandbox"),
                ("sandbox.providerUrl", "http://localhost:20000")]⟩
    startScript := .ok ()
    signerOk := fun _ => .ok ()
    header := fun k => if k < 7 then .error .rpcUnreachable else .ok ()
    inspectorCode := "inspector-code"
    submit := fun _ _ => .ok "KT1bbbbbbbbbbbbbbbbbbbbbbbbbbbbbbbbb" }

/-- Sandbox environment whose block-header probe always fails. -/
def c5Env2 : BootEnv :=
  { config := ⟨[("activeNetwork", "sandbox"),
                ("sandbox.providerUrl", "http://localhost:20000")]⟩
    startScript := .ok ()
    signerOk := fun _ => .ok ()
    header := fun _ => .error .rpcUnreachable
    inspectorCode := "inspector-code"
    submit := fun _ _ => .ok "KT1bbbbbbbbbbbbbbbbbbbbbbbbbbbbbbbbb" }

/-- Closed instance of the C5 theorem: at `c5Env1` bootstrap completes, at
`c5Env2` it raises the network-unreachable error. -/
theorem bootstrap_readiness_probe_bounded_inst :
    (∃ c, bootstrap c5Env1 = .ok c) ∧
    bootstrap c5Env2 = .error .rpcUnreachable :=
  bootstrap_readiness_probe_bounded c5Env1 c5Env2
    rfl rfl rfl rfl (fun _ => rfl) (fun _ => rfl)
    ⟨{ rpc := "http://localhost:20000"
       confirmationPollingIntervalSecond := 5 }, rfl⟩
    ⟨{ rpc := "http://localhost:20000"
       confirmationPollingIntervalSecond := 5 }, rfl⟩
    ⟨"KT1bbbbbbbbbbbbbbbbbbbbbbbbbbbbbbbbb", rfl⟩
    (fun k hk => by simp [c5Env1, hk])
    (by simp [c5Env1])
    (fun _ _ => rfl)
